import Mathlib

/-!
Verification of the eduvpn client's signature-validation and connection
lifecycle layers (`eduvpn/crypto.py` and `eduvpn/nm.py`), as a shallow
embedding in Lean 4.

Modelling conventions:
* byte strings are `List Nat`;
* the base64 decoder and the Ed25519 verification primitive (from the
  external nacl library) are abstracted into a `CryptoEnv` of functions,
  while the length checks that nacl documents and performs eagerly
  (public keys are exactly 32 bytes, detached signatures exactly 64
  bytes) are modelled explicitly, since the Python code's control flow
  depends on the exceptions they raise;
* Python exceptions become `Except` values: `BadSignature` stands for
  `nacl.exceptions.BadSignatureError`, `MalformedInput` for the
  decoding/length errors (`binascii.Error`, nacl's `ValueError`);
* the asynchronous NetworkManager operations always complete and then run
  their GAsync callback; each lifecycle function is modelled as a pure
  function from its environment to the observable effects it produces
  (requests issued, identifier-store writes, completion-callback firings).
-/

namespace EduVpn

/-- Byte strings, as lists of byte values. -/
abbrev Bytes := List Nat

/-- Errors of the signature-validation path: `BadSignature` models
`nacl.exceptions.BadSignatureError` (raised when no key verifies), and
`MalformedInput` models the decoding and length errors (`binascii.Error`
from `b64decode`, nacl's `ValueError` for wrong key/signature sizes),
which are not subclasses of `BadSignatureError` and hence are not caught
by `validate`'s `except BadSignatureError` handler. -/
inductive CryptoError where
  | BadSignature
  | MalformedInput
  deriving DecidableEq, Repr

/-- The external primitives `crypto.py` calls: `b64decode` (returning
`none` where Python raises `binascii.Error`) and the raw Ed25519
signature check performed by `crypto_sign_open` (true iff `rawsig` is a
valid signature of `content` under public key `key`). -/
structure CryptoEnv where
  b64decode : String → Option Bytes
  ed25519Verify : (key content rawsig : Bytes) → Bool

/-- Model of `nacl.signing.VerifyKey.verify(smessage, signature)`:
nacl first checks `len(signature) == 64` and raises `ValueError`
otherwise; only then does it run the cryptographic check, returning the
signed message `smessage` itself on success and raising
`BadSignatureError` on failure. -/
def verify (env : CryptoEnv) (key smessage rawsig : Bytes) : Except CryptoError Bytes :=
  if rawsig.length = 64 then
    if env.ed25519Verify key smessage rawsig then Except.ok smessage
    else Except.error CryptoError.BadSignature
  else Except.error CryptoError.MalformedInput

/-- Model of `make_verifiers()` applied to the `VERIFY_KEYS` list: for
each key string, `VerifyKey(b64decode(k)[10:])`; `b64decode` raises on
malformed base64 and the `VerifyKey` constructor raises `ValueError`
unless the key material is exactly 32 bytes. The first exception
propagates (the list comprehension stops there). -/
def make_verifiers (env : CryptoEnv) (keys : List String) : Except CryptoError (List Bytes) :=
  keys.mapM fun k =>
    match env.b64decode k with
    | none => Except.error CryptoError.MalformedInput
    | some d => if (d.drop 10).length = 32 then Except.ok (d.drop 10)
                else Except.error CryptoError.MalformedInput

/-- The `for f in verifiers` loop of `validate`: try each verifier in
order; `except BadSignatureError` moves on to the next verifier, any
other exception propagates; falling off the end raises
`BadSignatureError`. -/
def validateLoop (env : CryptoEnv) (content rawsig : Bytes) :
    List Bytes → Except CryptoError Bytes
  | [] => Except.error CryptoError.BadSignature
  | f :: fs =>
    match verify env f content rawsig with
    | Except.ok m => Except.ok m
    | Except.error CryptoError.BadSignature => validateLoop env content rawsig fs
    | Except.error CryptoError.MalformedInput => Except.error CryptoError.MalformedInput

/-- Model of `validate(signature, content)`: decode the signature
envelope and strip the 10-byte prefix, build the cached verifier list,
then try each verifier in order. -/
def validate (env : CryptoEnv) (keys : List String) (signatureStr : String)
    (content : Bytes) : Except CryptoError Bytes :=
  match env.b64decode signatureStr with
  | none => Except.error CryptoError.MalformedInput
  | some decoded =>
    match make_verifiers env keys with
    | Except.error e => Except.error e
    | Except.ok verifiers => validateLoop env content (decoded.drop 10) verifiers

/-- Concrete crypto environment used for witnesses and counterexamples:
"goodsig" decodes to a 74-byte envelope (64-byte raw signature after the
prefix), "shortsig" to a 12-byte envelope, "anchor" to a 42-byte key
blob (32 bytes of key material); the mock Ed25519 check accepts any
32-byte key and 64-byte signature unless the content is `[9]`. -/
def envA : CryptoEnv where
  b64decode := fun s =>
    if s = "goodsig" then some (List.replicate 74 3)
    else if s = "shortsig" then some (List.replicate 12 3)
    else if s = "anchor" then some (List.replicate 42 7)
    else none
  ed25519Verify := fun k c s => k.length == 32 && s.length == 64 && !(c == [9])

/-- Concrete crypto environment in which no signature ever verifies. -/
def envNoVerify : CryptoEnv where
  b64decode := fun s =>
    if s = "shortsig" then some (List.replicate 12 3)
    else if s = "anchor" then some (List.replicate 42 7)
    else none
  ed25519Verify := fun _ _ _ => false

/-! Connection lifecycle (`eduvpn/nm.py`). -/

/-- One observable step of `activate_connection`:
`retryScheduled ms` records the not-found branch (`time.sleep(.1)`, i.e.
100 ms, followed by `GLib.idle_add` of a re-entry of the same function);
`activated fired` records that `activate_connection_async` was issued
and its completion handler ran, whose `finally` block fires the caller's
callback iff one was passed (`fired`). -/
inductive ActStep where
  | retryScheduled (sleepMs : Nat)
  | activated (callbackFired : Bool)
  deriving DecidableEq, Repr

/-- Environment of `activate_connection`: whether
`client.get_connection_by_uuid(uuid)` finds the connection on the t-th
attempt (attempt 0 is the original call, attempt t+1 the t-th scheduled
re-entry). -/
structure ActivateEnv where
  resolves : Nat → Bool

/-- Model of `activate_connection(client, uuid, callback)`, as the trace
of observable steps it produces, run for `fuel` event-loop turns (the
Python function has no built-in bound: each failed resolution sleeps
100 ms and schedules a fresh re-entry). Faithfully to the source, the
re-entry is `lambda: activate_connection(client, uuid)` — the caller's
callback is NOT passed along, so every attempt after the first runs with
no callback. -/
def activate_connection (env : ActivateEnv) (hasCallback : Bool) :
    (attempt : Nat) → (fuel : Nat) → List ActStep
  | _, 0 => []
  | t, fuel + 1 =>
    if env.resolves t then [ActStep.activated hasCallback]
    else ActStep.retryScheduled 100 :: activate_connection env false (t + 1) fuel

/-- Number of times the caller's completion callback fires along a
trace of `activate_connection`. -/
def callbackFirings (steps : List ActStep) : Nat :=
  steps.countP fun s =>
    match s with
    | ActStep.activated true => true
    | _ => false

/-- Environment in which the uuid never resolves. -/
def envNeverResolves : ActivateEnv where
  resolves := fun _ => false

/-- Environment in which the uuid resolves from the second attempt on
(the not-found-then-retry scenario of the spec). -/
def envResolvesOnRetry : ActivateEnv where
  resolves := fun t => decide (1 ≤ t)

/-- Observable effects of `deactivate_connection`. `uuidWrites` lists
the values passed to `set_uuid`; `deactivate_connection` contains no
call to `set_uuid`, which the model records by never extending this
list. -/
structure DeactivateResult where
  requests : List String
  uuidWrites : List String
  callbackCount : Nat
  deriving DecidableEq, Repr

/-- Model of `deactivate_connection(client, uuid, callback)`. `primary`
is `client.get_primary_connection()`, reduced to its uuid. Only when a
primary connection exists and its uuid equals `uuid` is
`deactivate_connection_async` issued; its completion handler's `finally`
fires the callback iff one was passed. On the other two branches the
function merely logs and returns: the callback is never invoked there. -/
def deactivate_connection (primary : Option String) (uuid : String)
    (hasCallback : Bool) : DeactivateResult :=
  match primary with
  | some activeUuid =>
    if uuid = activeUuid then
      { requests := [activeUuid], uuidWrites := [],
        callbackCount := if hasCallback then 1 else 0 }
    else { requests := [], uuidWrites := [], callbackCount := 0 }
  | none => { requests := [], uuidWrites := [], callbackCount := 0 }

/-- Environment of `save_connection`: the stored identifier returned by
`get_uuid()` (`none` for absent), whether
`client.get_connection_by_uuid` resolves a given uuid, and the uuid the
manager assigns to a freshly added connection
(`add_connection_finish(result).get_uuid()`). -/
structure SaveEnv where
  stored : Option String
  resolves : String → Bool
  newUuid : String

/-- Observable effects of `save_connection` and its two helpers:
uuids of existing connection objects whose settings were replaced with
the new connection's settings and committed
(`replace_settings_from_connection` + `commit_changes_async`), number of
`add_connection_async` requests, values written to the identifier store
via `set_uuid` (in order), and completion-callback firings. -/
structure SaveResult where
  replacedAndCommitted : List String
  added : Nat
  uuidWrites : List String
  callbackCount : Nat
  deriving DecidableEq, Repr

/-- Model of `update_connection(old_con, new_con, callback)` together
with `update_connection_callback`: replace the old connection's settings
in place, commit asynchronously; on completion the callback is invoked
once (with the commit result). No `set_uuid` call occurs. -/
def update_connection (targetUuid : String) (hasCallback : Bool) : SaveResult :=
  { replacedAndCommitted := [targetUuid], added := 0, uuidWrites := [],
    callbackCount := if hasCallback then 1 else 0 }

/-- Model of `add_connection(client, connection, callback)` together
with `add_connection_callback`: register the connection, then on
completion `set_uuid(new_con.get_uuid())` and invoke the callback
once. -/
def add_connection (env : SaveEnv) (hasCallback : Bool) : SaveResult :=
  { replacedAndCommitted := [], added := 1, uuidWrites := [env.newUuid],
    callbackCount := if hasCallback then 1 else 0 }

/-- Model of `save_connection(client, config, private_key, certificate,
callback)` after the profile import: read the stored uuid; if it is
truthy (Python `if uuid:` — false for `None` and for the empty string)
and resolves to an existing connection object, update that object;
otherwise add the imported connection as a new object. -/
def save_connection (env : SaveEnv) (hasCallback : Bool) : SaveResult :=
  match env.stored with
  | some uuid =>
    if uuid = "" then add_connection env hasCallback
    else if env.resolves uuid then update_connection uuid hasCallback
    else add_connection env hasCallback
  | none => add_connection env hasCallback

/-- Concrete `SaveEnv` with a stale stored identifier. -/
def envSaveStale : SaveEnv where
  stored := some "stale-uuid"
  resolves := fun _ => false
  newUuid := "fresh-uuid"

/-- Concrete `SaveEnv` whose stored identifier still resolves. -/
def envSaveLive : SaveEnv where
  stored := some "live-uuid"
  resolves := fun u => u == "live-uuid"
  newUuid := "fresh-uuid"

/-! State observation (`init_dbus_system_bus` and `get_vpn_status`). -/

/-- An entry of the `ActiveConnections` D-Bus property as
`init_dbus_system_bus` reads it: its `Id` property, the truthiness of
its `Vpn` property, and the raw integer value of its `VpnState`
property. -/
structure DBusActiveConn where
  id : String
  vpn : Bool
  vpnStateRaw : Nat
  deriving DecidableEq, Repr

/-- Raw value of `NM.VpnConnectionState.DISCONNECTED` (libnm
`NMVpnConnectionState`). -/
def VPN_STATE_DISCONNECTED : Nat := 7

/-- Raw value of `NM.VpnConnectionState.ACTIVATED`. -/
def VPN_STATE_ACTIVATED : Nat := 5

/-- Raw value of `NM.VpnConnectionStateReason.NONE` (libnm
`NMVpnConnectionStateReason`). -/
def VPN_REASON_NONE : Nat := 1

/-- Model of the initial-state emission of `init_dbus_system_bus`: walk
the active connections in order; at the first one whose `Vpn` property
is truthy, call `callback(vpn_state, NONE)` with that connection's raw
`VpnState` value and return; if the loop finishes without finding one,
call `callback(DISCONNECTED, NONE)`. The returned list is the sequence
of `(state, reason)` raw-value pairs passed to the callback. -/
def init_dbus_system_bus : List DBusActiveConn → List (Nat × Nat)
  | [] => [(VPN_STATE_DISCONNECTED, VPN_REASON_NONE)]
  | a :: rest =>
    if a.vpn then [(a.vpnStateRaw, VPN_REASON_NONE)]
    else init_dbus_system_bus rest

/-- An active connection as `get_vpn_status` sees it: whether
`type(a) == NM.VpnConnection`, and the values its `get_state()` and
`get_state_reason()` accessors return (as raw integers; `UNKNOWN` is 0
in both enums). -/
structure NMActiveConn where
  isVpn : Bool
  state : Nat
  stateReason : Nat
  deriving DecidableEq, Repr

/-- Result of `get_vpn_status`: the returned pair, plus whether the
"more than one VPN connection active" warning was logged. -/
structure VpnStatusResult where
  state : Nat
  reason : Nat
  warned : Bool
  deriving DecidableEq, Repr

/-- Raw value of `UNKNOWN` in both state enums. -/
def STATE_UNKNOWN : Nat := 0

/-- Model of `get_vpn_status(client)`: filter the active connections to
the VPN-typed ones; with more than one, log a warning and return
`(UNKNOWN, UNKNOWN)`; with none, return `(UNKNOWN, UNKNOWN)` silently;
with exactly one, return its state and state reason. -/
def get_vpn_status (conns : List NMActiveConn) : VpnStatusResult :=
  match conns.filter (fun a => a.isVpn) with
  | [] => { state := STATE_UNKNOWN, reason := STATE_UNKNOWN, warned := false }
  | [v] => { state := v.state, reason := v.stateReason, warned := false }
  | _ :: _ :: _ => { state := STATE_UNKNOWN, reason := STATE_UNKNOWN, warned := true }

/-- Decidable equality for `Except`, so concrete runs of `validate` can
be checked by `decide`. -/
instance {ε α : Type} [DecidableEq ε] [DecidableEq α] : DecidableEq (Except ε α) := fun a b =>
  match a, b with
  | Except.error e, Except.error f => decidable_of_iff (e = f) (by simp)
  | Except.error _, Except.ok _ => isFalse (by simp)
  | Except.ok _, Except.error _ => isFalse (by simp)
  | Except.ok x, Except.ok y => decidable_of_iff (x = y) (by simp)

/-! Theorems. -/

/-- Helper: the verifier loop succeeds with the original content as soon
as the first verifying anchor is reached, provided the raw signature has
the valid Ed25519 length and every earlier anchor fails the
cryptographic check. -/
theorem validateLoop_ok_of_first (env : CryptoEnv) (content rawsig : Bytes)
    (pre : List Bytes) (v : Bytes) (post : List Bytes)
    (hlen : rawsig.length = 64)
    (hpre : ∀ u ∈ pre, env.ed25519Verify u content rawsig = false)
    (hv : env.ed25519Verify v content rawsig = true) :
    validateLoop env content rawsig (pre ++ v :: post) = Except.ok content := by
  induction pre with
  | nil => simp [validateLoop, verify, hlen, hv]
  | cons u pre ih =>
    have hu : env.ed25519Verify u content rawsig = false := hpre u (by simp)
    have ih2 := ih fun x hx => hpre x (List.mem_cons_of_mem u hx)
    simp [validateLoop, verify, hlen, hu, ih2]

/-- Helper: if no anchor passes the cryptographic check (and the raw
signature has the valid length, so the length check never fires), the
loop falls through to `BadSignatureError`. -/
theorem validateLoop_all_fail (env : CryptoEnv) (content rawsig : Bytes)
    (vs : List Bytes) (hlen : rawsig.length = 64)
    (hall : ∀ u ∈ vs, env.ed25519Verify u content rawsig = false) :
    validateLoop env content rawsig vs = Except.error CryptoError.BadSignature := by
  induction vs with
  | nil => rfl
  | cons u vs ih =>
    have hu : env.ed25519Verify u content rawsig = false := hall u (by simp)
    have ih2 := ih fun x hx => hall x (List.mem_cons_of_mem u hx)
    simp [validateLoop, verify, hlen, hu, ih2]

/-- Helper: with at least one verifier and a raw signature that is not
exactly 64 bytes, the first `verify` call raises nacl's length
`ValueError`, which the loop does not catch. -/
theorem validateLoop_short_sig (env : CryptoEnv) (content rawsig : Bytes)
    (v : Bytes) (vs : List Bytes) (hlen : rawsig.length ≠ 64) :
    validateLoop env content rawsig (v :: vs) = Except.error CryptoError.MalformedInput := by
  simp [validateLoop, verify, hlen]

/-- C1: for every message content and signature envelope, if some trust
anchor in the cached ordered anchor set verifies the content against the
raw signature obtained by stripping the first 10 bytes of the
base64-decoded envelope, then `validate(signature, content)` succeeds
and returns the original signed message unchanged (equal to the
content), using the first anchor in iteration order that verifies. The
environment hypothesis records the Ed25519 fact that only 64-byte blobs
can verify. -/
theorem c1_validate_first_verifying_anchor
    (env : CryptoEnv) (keys : List String) (signatureStr : String)
    (content d v : Bytes) (vs pre post : List Bytes)
    (hlen : ∀ k c s, env.ed25519Verify k c s = true → s.length = 64)
    (hdec : env.b64decode signatureStr = some d)
    (hvs : make_verifiers env keys = Except.ok vs)
    (hsplit : vs = pre ++ v :: post)
    (hpre : ∀ u ∈ pre, env.ed25519Verify u content (d.drop 10) = false)
    (hv : env.ed25519Verify v content (d.drop 10) = true) :
    validate env keys signatureStr content = Except.ok content := by
  subst hsplit
  have hlen64 : (d.drop 10).length = 64 := hlen v content (d.drop 10) hv
  simp only [validate, hdec, hvs]
  exact validateLoop_ok_of_first env content (d.drop 10) pre v post hlen64 hpre hv

/-- Witness for C1 at a concrete environment: one 32-byte anchor, a
74-byte decoded envelope, content `[1]` that the anchor verifies. -/
theorem c1_witness : validate envA ["anchor"] "goodsig" [1] = Except.ok [1] :=
  c1_validate_first_verifying_anchor envA ["anchor"] "goodsig" [1]
    (List.replicate 74 3) (List.replicate 32 7) [List.replicate 32 7] [] []
    (by
      intro k c s h
      simp only [envA, Bool.and_eq_true, beq_iff_eq, Bool.not_eq_eq_eq_not] at h
      exact h.1.2)
    (by decide) (by decide) rfl (by simp) (by decide)

/-- C4 counterexample: with one well-formed anchor, an envelope that
base64-decodes to only 12 bytes (so the stripped raw signature has 2
bytes), and an environment in which no anchor ever verifies, `validate`
fails with nacl's length `ValueError` (MalformedInput), not with
`BadSignatureError` as the claim requires. -/
theorem c4_counterexample :
    envNoVerify.b64decode "shortsig" = some (List.replicate 12 3)
    ∧ (∀ k c s, envNoVerify.ed25519Verify k c s = false)
    ∧ validate envNoVerify ["anchor"] "shortsig" [1]
        = Except.error CryptoError.MalformedInput
    ∧ (Except.error CryptoError.MalformedInput : Except CryptoError Bytes)
        ≠ Except.error CryptoError.BadSignature :=
  ⟨by decide, fun _ _ _ => rfl, by decide, by decide⟩

/-- C4 (amended): if the signature envelope base64-decodes successfully
and no trust anchor verifies the content against the stripped raw
signature, then `validate` fails with `BadSignature` — provided the raw
signature is exactly 64 bytes long, or the anchor set is empty (with a
nonempty anchor set and a wrong-length raw signature it fails with the
length error instead, see the counterexample). -/
theorem c4_no_anchor_verifies_bad_signature
    (env : CryptoEnv) (keys : List String) (signatureStr : String)
    (content d : Bytes) (vs : List Bytes)
    (hdec : env.b64decode signatureStr = some d)
    (hvs : make_verifiers env keys = Except.ok vs)
    (hnone : ∀ v ∈ vs, env.ed25519Verify v content (d.drop 10) = false)
    (hok : (d.drop 10).length = 64 ∨ vs = []) :
    validate env keys signatureStr content = Except.error CryptoError.BadSignature := by
  simp only [validate, hdec, hvs]
  rcases hok with hlen | hempty
  · exact validateLoop_all_fail env content (d.drop 10) vs hlen hnone
  · subst hempty; rfl

/-- Witness for C4 (amended) at a concrete environment: one anchor, a
well-formed 74-byte envelope, and content `[9]` that the anchor rejects;
`validate` fails with `BadSignature`. -/
theorem c4_witness : validate envA ["anchor"] "goodsig" [9]
    = Except.error CryptoError.BadSignature :=
  c4_no_anchor_verifies_bad_signature envA ["anchor"] "goodsig" [9]
    (List.replicate 74 3) [List.replicate 32 7]
    (by decide) (by decide) (by decide) (Or.inl (by decide))

/-- C5 counterexample: with an empty anchor set and an envelope whose
decoded blob is only 12 bytes (undersized), `validate` fails with
`BadSignatureError` (the loop body never runs, so the length check never
fires), not with the MalformedInput error the claim requires. -/
theorem c5_counterexample :
    envNoVerify.b64decode "shortsig" = some (List.replicate 12 3)
    ∧ (List.replicate 12 3).length < 74
    ∧ validate envNoVerify [] "shortsig" [1]
        = Except.error CryptoError.BadSignature :=
  ⟨by decide, by decide, by decide⟩

/-- C5 (amended): a signature envelope that is malformed base64 makes
`validate` fail with `MalformedInput` before any verification; an
envelope whose decoded blob is smaller than the required 74 bytes
(10-byte prefix plus 64-byte signature) makes it fail with
`MalformedInput` — via nacl's eager signature-length check, before any
cryptographic verification — provided the anchor set is nonempty; with
an empty anchor set it fails with `BadSignature` instead (see the
counterexample). -/
theorem c5_malformed_or_undersized
    (env : CryptoEnv) (keys : List String) (signatureStr : String) (content : Bytes) :
    (env.b64decode signatureStr = none →
      validate env keys signatureStr content = Except.error CryptoError.MalformedInput)
    ∧ (∀ (d v : Bytes) (vs : List Bytes), env.b64decode signatureStr = some d →
        d.length < 74 → make_verifiers env keys = Except.ok (v :: vs) →
        validate env keys signatureStr content = Except.error CryptoError.MalformedInput) := by
  constructor
  · intro h
    simp only [validate, h]
  · intro d v vs hdec hsize hvs
    simp only [validate, hdec, hvs]
    apply validateLoop_short_sig
    rw [List.length_drop]
    omega

/-- Witness for C5 (amended): a string that does not base64-decode, and
a 12-byte decoded envelope with one anchor, both yield `MalformedInput`. -/
theorem c5_witness :
    validate envNoVerify ["anchor"] "garbage" [1]
      = Except.error CryptoError.MalformedInput
    ∧ validate envNoVerify ["anchor"] "shortsig" [1]
      = Except.error CryptoError.MalformedInput :=
  ⟨(c5_malformed_or_undersized envNoVerify ["anchor"] "garbage" [1]).1 (by decide),
   (c5_malformed_or_undersized envNoVerify ["anchor"] "shortsig" [1]).2
     (List.replicate 12 3) (List.replicate 32 7) [] (by decide) (by decide) (by decide)⟩

/-- C2: the claim that the completion callback of `activate_connection`
and `deactivate_connection` fires exactly once on every path fails in
the code; this theorem evaluates the model at the failing inputs. On
deactivate's two no-op branches (no primary connection, or primary uuid
different from the requested one) the function returns without invoking
the callback, and on activate's not-found-then-retry path the scheduled
re-entry omits the callback argument, so even the successful final
attempt fires nothing: zero firings in all three cases. -/
theorem c2_callback_lost_on_noop_and_retry :
    (deactivate_connection (some "a") "b" true).callbackCount = 0
    ∧ (deactivate_connection none "b" true).callbackCount = 0
    ∧ activate_connection envResolvesOnRetry true 0 5
        = [ActStep.retryScheduled 100, ActStep.activated false]
    ∧ callbackFirings (activate_connection envResolvesOnRetry true 0 5) = 0 := by
  refine ⟨rfl, rfl, by decide, by decide⟩

/-- C3 counterexample: with a uuid that never resolves, the attempt
after the failed retry schedules yet another 100 ms retry (three
re-entries in the first three event-loop turns), instead of becoming
terminal after a single retry as the claim states; no terminal
not-resolved error exists anywhere in the function. -/
theorem c3_counterexample :
    activate_connection envNeverResolves true 0 3
      = [ActStep.retryScheduled 100, ActStep.retryScheduled 100,
         ActStep.retryScheduled 100] := by
  decide

/-- C3 (amended): on a not-found resolution, `activate_connection`
sleeps the fixed 100 ms delay and reschedules the same operation on the
event loop (dropping the caller's callback); this repeats for as long as
resolution keeps failing — there is no bound of one retry and no
terminal error — and the operation terminates (issuing the activation
request) exactly when some attempt resolves. -/
theorem c3_retry_unbounded (env : ActivateEnv) (hasCallback : Bool) (t fuel : Nat) :
    ((∀ s, env.resolves s = false) →
      activate_connection env hasCallback t fuel
        = List.replicate fuel (ActStep.retryScheduled 100))
    ∧ (env.resolves t = true →
      activate_connection env hasCallback t (fuel + 1) = [ActStep.activated hasCallback]) := by
  constructor
  · intro hfail
    induction fuel generalizing t hasCallback with
    | zero => rfl
    | succ n ih =>
      simp [activate_connection, hfail t, List.replicate_succ, ih]
  · intro hres
    simp [activate_connection, hres]

/-- Witness for C3 (amended): a never-resolving uuid yields two
scheduled retries in two turns, and a uuid that resolves on attempt 1
yields an immediate activation there. -/
theorem c3_witness :
    activate_connection envNeverResolves true 0 2
      = List.replicate 2 (ActStep.retryScheduled 100)
    ∧ activate_connection envResolvesOnRetry false 1 4 = [ActStep.activated false] :=
  ⟨(c3_retry_unbounded envNeverResolves true 0 2).1 (fun _ => rfl),
   (c3_retry_unbounded envResolvesOnRetry false 1 3).2 (by decide)⟩

/-- C6: when `save_connection` runs with no stored identifier, or with a
stored identifier the manager cannot resolve, it registers the imported
connection as a fresh object (an insert, no update), raises nothing, and
persists exactly the newly assigned identifier — the single store write
overwrites any previously stored value. -/
theorem c6_insert_on_missing_or_stale
    (env : SaveEnv) (hasCallback : Bool)
    (h : env.stored = none ∨ ∃ u, env.stored = some u ∧ env.resolves u = false) :
    (save_connection env hasCallback).replacedAndCommitted = []
    ∧ (save_connection env hasCallback).added = 1
    ∧ (save_connection env hasCallback).uuidWrites = [env.newUuid] := by
  rcases h with hnone | ⟨u, hstored, hres⟩
  · simp [save_connection, hnone, add_connection]
  · by_cases hu : u = ""
    · simp [save_connection, hstored, hu, add_connection]
    · simp [save_connection, hstored, hu, hres, add_connection]

/-- Witness for C6: a stale stored identifier that no longer resolves
leads to an insert that persists the fresh manager-assigned uuid. -/
theorem c6_witness :
    (save_connection envSaveStale true).replacedAndCommitted = []
    ∧ (save_connection envSaveStale true).added = 1
    ∧ (save_connection envSaveStale true).uuidWrites = [envSaveStale.newUuid] :=
  c6_insert_on_missing_or_stale envSaveStale true (Or.inr ⟨"stale-uuid", rfl, rfl⟩)

/-- C7: when `save_connection` runs with a stored identifier that the
manager resolves to an existing connection object, it replaces that
object's settings in place with the new connection's settings and
commits the change, adds nothing, and performs no write to the
identifier store anywhere on the update path. -/
theorem c7_update_in_place_no_store_write
    (env : SaveEnv) (hasCallback : Bool) (u : String)
    (hstored : env.stored = some u) (hne : u ≠ "")
    (hres : env.resolves u = true) :
    (save_connection env hasCallback).replacedAndCommitted = [u]
    ∧ (save_connection env hasCallback).added = 0
    ∧ (save_connection env hasCallback).uuidWrites = [] := by
  simp [save_connection, hstored, hne, hres, update_connection]

/-- Witness for C7: a stored identifier that still resolves is updated
in place and the store is not written. -/
theorem c7_witness :
    (save_connection envSaveLive true).replacedAndCommitted = ["live-uuid"]
    ∧ (save_connection envSaveLive true).added = 0
    ∧ (save_connection envSaveLive true).uuidWrites = [] :=
  c7_update_in_place_no_store_write envSaveLive true "live-uuid" rfl (by decide) rfl

/-- C8: when `deactivate_connection` runs with no primary active
connection, or with a primary connection whose uuid differs from the
requested one, no deactivation request is issued to the manager and the
identifier store is not written — a logged no-op, not an error. -/
theorem c8_deactivate_noop
    (primary : Option String) (uuid : String) (hasCallback : Bool)
    (h : primary = none ∨ ∃ a, primary = some a ∧ uuid ≠ a) :
    (deactivate_connection primary uuid hasCallback).requests = []
    ∧ (deactivate_connection primary uuid hasCallback).uuidWrites = [] := by
  rcases h with hnone | ⟨a, hprim, hne⟩
  · simp [deactivate_connection, hnone]
  · simp [deactivate_connection, hprim, hne]

/-- Witness for C8: requesting deactivation of "b" while the primary
connection is "a" issues nothing and writes nothing. -/
theorem c8_witness :
    (deactivate_connection (some "a") "b" true).requests = []
    ∧ (deactivate_connection (some "a") "b" true).uuidWrites = [] :=
  c8_deactivate_noop (some "a") "b" true (Or.inr ⟨"a", rfl, by decide⟩)

/-- C9 counterexample: with two VPN-typed active connections, both in
raw state ACTIVATED, the initial emission reports the first one's raw
state, not DISCONNECTED as the claim requires for the more-than-one
case. -/
theorem c9_counterexample :
    init_dbus_system_bus
        [⟨"a", true, VPN_STATE_ACTIVATED⟩, ⟨"b", true, VPN_STATE_ACTIVATED⟩]
      = [(VPN_STATE_ACTIVATED, VPN_REASON_NONE)]
    ∧ init_dbus_system_bus
        [⟨"a", true, VPN_STATE_ACTIVATED⟩, ⟨"b", true, VPN_STATE_ACTIVATED⟩]
      ≠ [(VPN_STATE_DISCONNECTED, VPN_REASON_NONE)] := by
  decide

/-- C9 (amended): at subscription time the observer enumerates the
active connections once and synchronously emits exactly one initial
state: the raw state of the FIRST VPN-typed active connection in
enumeration order if any exists (hence, with exactly one, that
connection's raw state), and DISCONNECTED only when there are none. -/
theorem c9_initial_emission (active : List DBusActiveConn) :
    init_dbus_system_bus active =
      [match active.find? (fun a => a.vpn) with
       | some a => (a.vpnStateRaw, VPN_REASON_NONE)
       | none => (VPN_STATE_DISCONNECTED, VPN_REASON_NONE)] := by
  induction active with
  | nil => rfl
  | cons a rest ih =>
    by_cases h : a.vpn
    · simp [init_dbus_system_bus, List.find?, h]
    · simp [init_dbus_system_bus, List.find?, h, ih]

/-- C10: `get_vpn_status` returns `(UNKNOWN, UNKNOWN)` whenever the
number of VPN-typed active connections differs from one; the zero case
and the more-than-one case return the same value and are
indistinguishable at this interface, and only the more-than-one case
logs the warning. -/
theorem c10_unknown_when_not_exactly_one
    (conns : List NMActiveConn)
    (h : (conns.filter (fun a => a.isVpn)).length ≠ 1) :
    get_vpn_status conns =
      { state := STATE_UNKNOWN, reason := STATE_UNKNOWN,
        warned := decide (1 < (conns.filter (fun a => a.isVpn)).length) } := by
  rcases hf : conns.filter (fun a => a.isVpn) with _ | ⟨v, _ | ⟨w, rest⟩⟩
  · simp [get_vpn_status, hf]
  · exact absurd (by rw [hf]; rfl) h
  · have h2 : 1 < (v :: w :: rest).length := by
      simp [List.length_cons]
    simp [get_vpn_status, hf, h2]

/-- Witness for C10: one non-VPN and two VPN-typed active connections
yield `(UNKNOWN, UNKNOWN)` with the warning logged. -/
theorem c10_witness :
    get_vpn_status [⟨true, 2, 1⟩, ⟨false, 9, 9⟩, ⟨true, 3, 1⟩]
      = { state := STATE_UNKNOWN, reason := STATE_UNKNOWN, warned := true } := by
  have h := c10_unknown_when_not_exactly_one
    [⟨true, 2, 1⟩, ⟨false, 9, 9⟩, ⟨true, 3, 1⟩] (by decide)
  simpa using h

end EduVpn
